import Mathlib

/-!
Verification of the floating-interactive-element core of the `drk-ui-components`
library: the disclosure state controller (`src/hooks/useDisclosure.ts`), the
Dropdown / CustomMultiSelect selection and filtering logic
(`src/components/Modal.tsx`, `src/components/CustomMultiSelect.tsx`), the
anchored position calculator, the global-listener lifecycle, and the Modal
focus trap.  Each definition is a shallow embedding of the corresponding
TypeScript source.
-/

namespace DrkUI

/-! ## Disclosure State Controller (`src/hooks/useDisclosure.ts`)

The hook keeps `internalOpen` (React state initialised to `defaultOpen`) and a
fixed `openProp : Option Bool` (the optional controlled `open` prop).
`isControlled = openProp ≠ undefined`; `isOpen` is the prop when controlled,
else the internal state.  `setOpen next` mutates `internalOpen` only when
uncontrolled and always calls `onOpenChange next`; `open`/`close`/`toggle`
are `setOpen true` / `setOpen false` / `setOpen (!isOpen)`. -/

structure DisclosureState where
  /-- The controlled `open` prop; `none` models `undefined` (uncontrolled). -/
  openProp : Option Bool
  /-- React `useState` cell initialised from `defaultOpen`. -/
  internalOpen : Bool
  deriving Repr, DecidableEq

/-- Source: `const isControlled = openProp !== undefined`. -/
def DisclosureState.isControlled (s : DisclosureState) : Bool :=
  s.openProp.isSome

/-- Source: `const isOpen = isControlled ? Boolean(openProp) : internalOpen`. -/
def DisclosureState.isOpen (s : DisclosureState) : Bool :=
  match s.openProp with
  | some b => b
  | none => s.internalOpen

/-- Models `setOpen(next)`: updates `internalOpen` only when uncontrolled, and always
invokes `onOpenChange(next)`.  Returns the next state together with the value
passed to the `onOpenChange` notification. -/
def DisclosureState.setOpen (s : DisclosureState) (next : Bool) :
    DisclosureState × Bool :=
  (if s.isControlled then s else { s with internalOpen := next }, next)

/-- The three parameterless operations exposed by the controller. -/
inductive DiscOp where
  | opn
  | close
  | toggle
  deriving Repr, DecidableEq

/-- Source: `open() = setOpen(true)`, `close() = setOpen(false)`,
`toggle() = setOpen(!isOpen)`. -/
def DisclosureState.applyOp (s : DisclosureState) (op : DiscOp) :
    DisclosureState × Bool :=
  match op with
  | .opn => s.setOpen true
  | .close => s.setOpen false
  | .toggle => s.setOpen (!s.isOpen)

/-- Run a whole sequence of `open/close/toggle` calls, threading the state. -/
def DisclosureState.runOps (s : DisclosureState) (ops : List DiscOp) :
    DisclosureState :=
  ops.foldl (fun st op => (st.applyOp op).1) s

/-- A freshly constructed controller: `useState(defaultOpen)` with the given
(optional) controlled prop. -/
def mkDisclosure (openProp : Option Bool) (defaultOpen : Bool) :
    DisclosureState :=
  { openProp := openProp, internalOpen := defaultOpen }

/-- Modelled from the spec: replaying the same call sequence on a plain
boolean — `open()` sets it true, `close()` sets it false, `toggle()` negates
it.  This is the reference model the uncontrolled controller must refine. -/
def replayBool (b : Bool) (ops : List DiscOp) : Bool :=
  ops.foldl
    (fun cur op =>
      match op with
      | .opn => true
      | .close => false
      | .toggle => !cur) b

/-- The value `onOpenChange` is expected to receive for each call, as the spec
phrases it: `open()` requests `true`, `close()` requests `false`, `toggle()`
requests the negation of the current `isOpen`. -/
def requestedValue (s : DisclosureState) (op : DiscOp) : Bool :=
  match op with
  | .opn => true
  | .close => false
  | .toggle => !s.isOpen

lemma isOpen_uncontrolled (internal : Bool) :
    (DisclosureState.mk none internal).isOpen = internal := rfl

lemma applyOp_uncontrolled (internal : Bool) (op : DiscOp) :
    ((DisclosureState.mk none internal).applyOp op).1 =
      DisclosureState.mk none (replayBool internal [op]) := by
  cases op <;> rfl

/-- Claim C1: for every sequence of `open()`/`close()`/`toggle()` calls on an
uncontrolled disclosure controller (no external `open` value, initial state
`defaultOpen`), the `isOpen` value after the sequence equals the final state
obtained by replaying the same sequence on a plain boolean starting at
`defaultOpen`. -/
theorem uncontrolled_disclosure_replays_plain_bool
    (defaultOpen : Bool) (ops : List DiscOp) :
    ((mkDisclosure none defaultOpen).runOps ops).isOpen =
      replayBool defaultOpen ops := by
  induction ops generalizing defaultOpen with
  | nil => rfl
  | cons op rest ih =>
    show ((((mkDisclosure none defaultOpen).applyOp op).1).runOps rest).isOpen
        = replayBool (replayBool defaultOpen [op]) rest
    rw [show ((mkDisclosure none defaultOpen).applyOp op).1 =
        mkDisclosure none (replayBool defaultOpen [op]) from
      applyOp_uncontrolled defaultOpen op]
    exact ih (replayBool defaultOpen [op])

/-- Claim C2: for a controlled disclosure controller (external `open` value `v`
supplied), every `open()`/`close()`/`toggle()` call leaves the state — hence
the value returned by `isOpen` — unchanged (it always reflects `v`), and the
only effect of the call is that `onOpenChange` fires with the requested
value. -/
theorem controlled_disclosure_frame
    (v internal : Bool) (op : DiscOp) :
    ((DisclosureState.mk (some v) internal).applyOp op).1 =
        DisclosureState.mk (some v) internal ∧
      (((DisclosureState.mk (some v) internal).applyOp op).1).isOpen = v ∧
      ((DisclosureState.mk (some v) internal).applyOp op).2 =
        requestedValue (DisclosureState.mk (some v) internal) op := by
  cases op <;> exact ⟨rfl, rfl, rfl⟩

/-! ## Case-insensitive substring filtering

Both `CustomMultiSelect` (`filteredOptions`, CustomMultiSelect.tsx) and the
`Dropdown` (`filteredOptions`, Modal.tsx) filter their option list with
`option.label.toLowerCase().includes(query.toLowerCase())`.  Strings are
modelled through their character lists; `charsInfix` is JavaScript's
`String.prototype.includes` (contiguous substring test). -/

/-- JavaScript `haystack.includes(sub)` on character lists: `sub` occurs as a
contiguous substring of the argument. -/
def charsInfix (sub : List Char) : List Char → Bool
  | [] => sub.isEmpty
  | c :: t => sub.isPrefixOf (c :: t) || charsInfix sub t

/-- JavaScript `toLowerCase()`, character by character. -/
def lowerChars (l : List Char) : List Char := l.map Char.toLower

/-- Models `label.toLowerCase().includes(query.toLowerCase())`. -/
def includesCI (label query : String) : Bool :=
  charsInfix (lowerChars query.toList) (lowerChars label.toList)

/-- The test `charsInfix` decides Mathlib's contiguous-sublist relation `<:+:`. -/
lemma charsInfix_iff_infix (sub l : List Char) :
    charsInfix sub l = true ↔ sub <:+: l := by
  induction l with
  | nil =>
    simp [charsInfix, List.isEmpty_iff, List.infix_nil]
  | cons c t ih =>
    simp only [charsInfix, Bool.or_eq_true, ih, List.infix_cons_iff,
      List.isPrefixOf_iff_prefix]

/-- The option shape used by `CustomMultiSelect` (`SelectOption`):
an identifier and a display name. -/
structure SelectOption where
  id : String
  name : String
  deriving Repr, DecidableEq

/-- The option shape used by the `Dropdown` (`DropdownOption`): an identifier
(`string | number`) and a display label. -/
structure DropdownOption where
  id : String ⊕ Int
  label : String
  deriving Repr, DecidableEq

/-- CustomMultiSelect.tsx: `options?.filter((option) =>
option.name.toLowerCase().includes(searchTerm.toLowerCase()))`. -/
def cmsFilteredOptions (options : List SelectOption) (searchTerm : String) :
    List SelectOption :=
  options.filter (fun option => includesCI option.name searchTerm)

/-- Modal.tsx (Dropdown): `options?.filter((option) =>
option?.label?.toLowerCase()?.includes(searchQuery?.toLowerCase()))`. -/
def ddFilteredOptions (options : List DropdownOption) (searchQuery : String) :
    List DropdownOption :=
  options.filter (fun option => includesCI option.label searchQuery)

/-- Claim C9: for every option list and query, the filtered option list contains
exactly those options whose display label contains the query as a
case-insensitive substring, and it is a sublist of the original list (the
matching options keep their original relative order).  Both the
CustomMultiSelect filter and the Dropdown filter are covered. -/
theorem filter_exact_and_order_stable
    (opts : List SelectOption) (dopts : List DropdownOption) (q : String) :
    (cmsFilteredOptions opts q).Sublist opts ∧
      (∀ o, o ∈ cmsFilteredOptions opts q ↔
        o ∈ opts ∧ lowerChars q.toList <:+: lowerChars o.name.toList) ∧
      (ddFilteredOptions dopts q).Sublist dopts ∧
      (∀ o, o ∈ ddFilteredOptions dopts q ↔
        o ∈ dopts ∧ lowerChars q.toList <:+: lowerChars o.label.toList) := by
  refine ⟨List.filter_sublist opts, fun o => ?_,
    List.filter_sublist dopts, fun o => ?_⟩ <;>
    simp [cmsFilteredOptions, ddFilteredOptions, List.mem_filter, includesCI,
      charsInfix_iff_infix]

/-! ## CustomMultiSelect commit (`handleSelection`, CustomMultiSelect.tsx)

```
if (multiple) {
  if (selectedItems.includes(id)) {
    onSelect(selectedItems?.filter((selected) => selected !== id));
  } else {
    onSelect([...selectedItems, id]);
  }
} else {
  onSelect([id]);
  setIsOpen(false);
}
```
The function returns the array passed to `onSelect` together with the panel's
`isOpen` state after the call (only the single-select branch closes it). -/

def handleSelection (multiple : Bool) (selectedItems : List String)
    (isOpen : Bool) (id : String) : List String × Bool :=
  if multiple then
    (if decide (id ∈ selectedItems) then
        selectedItems.filter (fun selected => selected ≠ id)
      else selectedItems ++ [id],
      isOpen)
  else ([id], false)

/-- Claim C4: in CustomMultiSelect with `multiple = true`, committing an item
identifier toggles its membership in the selection set passed to `onSelect`
and leaves the panel open; committing the same identifier twice in a row
returns the selection set to its original membership state. -/
theorem multiselect_commit_toggles_membership
    (sel : List String) (id : String) :
    (handleSelection true sel true id).2 = true ∧
      (∀ x, x ∈ (handleSelection true sel true id).1 ↔
        if x = id then id ∉ sel else x ∈ sel) ∧
      (∀ x,
        x ∈ (handleSelection true (handleSelection true sel true id).1
              true id).1 ↔ x ∈ sel) := by
  have mem1 : ∀ (s : List String) (x : String),
      x ∈ (handleSelection true s true id).1 ↔
        if x = id then id ∉ s else x ∈ s := by
    intro s x
    by_cases hid : id ∈ s <;> by_cases hx : x = id <;>
      simp [handleSelection, hid, hx, List.mem_filter]
  refine ⟨by by_cases hid : id ∈ sel <;> simp [handleSelection, hid],
    mem1 sel, fun x => ?_⟩
  rw [mem1 _ x]
  by_cases hx : x = id
  · subst hx
    rw [mem1 sel x]
    by_cases hid : x ∈ sel <;> simp [hid]
  · rw [mem1 sel x]
    simp [hx]

/-- Claim C10: in CustomMultiSelect with `multiple = true`, if the incoming
`selectedItems` array has no duplicates then neither does the array passed to
`onSelect`: committing an identifier not currently selected appends it exactly
once at the end, and committing a currently selected identifier removes every
occurrence of it while keeping the remaining identifiers in their relative
order (the result is a sublist of the input). -/
theorem multiselect_commit_preserves_nodup
    (sel : List String) (id : String) (hnd : sel.Nodup) :
    ((handleSelection true sel true id).1).Nodup ∧
      (id ∉ sel → (handleSelection true sel true id).1 = sel ++ [id]) ∧
      (id ∈ sel →
        id ∉ (handleSelection true sel true id).1 ∧
        ((handleSelection true sel true id).1).Sublist sel ∧
        ∀ x ∈ sel, x ≠ id → x ∈ (handleSelection true sel true id).1) := by
  by_cases hid : id ∈ sel
  · have hr : (handleSelection true sel true id).1
        = sel.filter (fun selected => selected ≠ id) := by
      simp [handleSelection, hid]
    refine ⟨?_, fun h => absurd hid h, fun _ => ?_⟩
    · rw [hr]; exact hnd.filter _
    · rw [hr]
      refine ⟨by simp [List.mem_filter], List.filter_sublist sel, ?_⟩
      intro x hx hxid
      simp [List.mem_filter, hx, hxid]
  · have hr : (handleSelection true sel true id).1 = sel ++ [id] := by
      simp [handleSelection, hid]
    refine ⟨?_, fun _ => hr, fun h => absurd h hid⟩
    rw [hr]
    exact List.Nodup.append hnd (List.nodup_singleton id)
      (by simpa [List.disjoint_singleton] using hid)

/-- Witness for `multiselect_commit_preserves_nodup` at
`sel = ["a", "b"]`, `id = "b"`. -/
theorem multiselect_commit_preserves_nodup_witness :
    (["a", "b"] : List String).Nodup ∧
      (((handleSelection true ["a", "b"] true "b").1).Nodup ∧
        ("b" ∉ (["a", "b"] : List String) →
          (handleSelection true ["a", "b"] true "b").1 = ["a", "b"] ++ ["b"]) ∧
        ("b" ∈ (["a", "b"] : List String) →
          "b" ∉ (handleSelection true ["a", "b"] true "b").1 ∧
          ((handleSelection true ["a", "b"] true "b").1).Sublist ["a", "b"] ∧
          ∀ x ∈ (["a", "b"] : List String), x ≠ "b" →
            x ∈ (handleSelection true ["a", "b"] true "b").1)) :=
  ⟨by decide, multiselect_commit_preserves_nodup ["a", "b"] "b" (by decide)⟩

/-! ## Dropdown clear action (`clearSelection`, Modal.tsx)

```
const clearSelection = () => {
  onSelect({ id: "", label: "" });
  setSearchQuery("");
  if (onClear) onClear();
};
```
The notifications the handler fires are recorded in order, together with the
new `searchQuery` value. -/

/-- Notifications observable by the Dropdown's caller. -/
inductive DdNotification where
  | selectFired (o : DropdownOption)
  | clearFired
  deriving Repr, DecidableEq

/-- The empty option `{ id: "", label: "" }` the clear handler commits. -/
def emptyOption : DropdownOption := ⟨Sum.inl "", ""⟩

/-- Models `clearSelection`, given whether an `onClear` callback was supplied.
Returns the fired notifications in order and the new `searchQuery`. -/
def clearSelection (onClearProvided : Bool) : List DdNotification × String :=
  ([DdNotification.selectFired emptyOption] ++
      (if onClearProvided then [DdNotification.clearFired] else []),
    "")

/-- Claim C7: invoking the Dropdown's clear action with an `onClear` callback
supplied sets the selection to the empty option (`onSelect` receives
`{id: "", label: ""}`), resets the query, and fires the selection-change
notification and the clear notification exactly once each. -/
theorem dropdown_clear_fires_both_exactly_once :
    ((clearSelection true).1.countP
        (fun n => match n with | .selectFired _ => true | .clearFired => false))
        = 1 ∧
      ((clearSelection true).1.countP
        (fun n => match n with | .selectFired _ => false | .clearFired => true))
        = 1 ∧
      DdNotification.selectFired emptyOption ∈ (clearSelection true).1 ∧
      (∀ o, DdNotification.selectFired o ∈ (clearSelection true).1 →
        o = emptyOption) ∧
      (clearSelection true).2 = "" := by
  refine ⟨rfl, rfl, by decide, fun o ho => ?_, rfl⟩
  simpa [clearSelection] using ho

/-! ## Dropdown query / highlight state (Modal.tsx, `Dropdown`)

`handleKeyboardNavigation` handles ArrowDown / ArrowUp / Enter / Escape / Tab
while the panel is open (it returns immediately when closed), computing the
filtered list from the current `searchQuery`.  Typing in the search input runs
`onChange = (e) => setSearchQuery(e.target.value)` — and nothing else: the
`highlightedIndex` state is not touched by typing. -/

structure DropdownState where
  isDropdownOpen : Bool
  searchQuery : String
  highlightedIndex : Option Nat
  deriving Repr, DecidableEq

inductive DdKey where
  | arrowDown
  | arrowUp
  | enter
  | escape
  | tab
  deriving Repr, DecidableEq

/-- One step of `handleKeyboardNavigation`.  The second component records the
argument of an `onSelect` call when one fires: `some v` means `onSelect` was
invoked with `v`, where an out-of-range lookup yields `none` inside (the
JavaScript `filteredOptions[highlightedIndex]` being `undefined`).
JavaScript's wrap-around arithmetic `(prev - 1 + len) % len` is carried out in
`Int` exactly as written; the `prev === null` defaults (`0`, `len - 1`) are
taken verbatim.  (When the filtered list is empty JavaScript's `% 0` is `NaN`;
no theorem below touches that corner.) -/
def ddKey (options : List DropdownOption) (s : DropdownState) (k : DdKey) :
    DropdownState × Option (Option DropdownOption) :=
  if !s.isDropdownOpen then (s, none)
  else
    let filtered := ddFilteredOptions options s.searchQuery
    match k with
    | .arrowDown =>
        ({ s with
            highlightedIndex := some (match s.highlightedIndex with
              | none => 0
              | some prev => (prev + 1) % filtered.length) }, none)
    | .arrowUp =>
        ({ s with
            highlightedIndex := some (match s.highlightedIndex with
              | none => filtered.length - 1
              | some prev =>
                  (((prev : Int) - 1 + filtered.length) %
                    (filtered.length : Int)).toNat) }, none)
    | .enter =>
        match s.highlightedIndex with
        | none => (s, none)
        | some hi =>
            ({ s with isDropdownOpen := false, searchQuery := "" },
              some (filtered.get? hi))
    | .escape => ({ s with isDropdownOpen := false, searchQuery := "" }, none)
    | .tab => ({ s with isDropdownOpen := false, searchQuery := "" }, none)

/-- Typing in the Dropdown's search input: `setSearchQuery(e.target.value)`.
No other state is written — in particular `highlightedIndex` is kept. -/
def ddSetQuery (s : DropdownState) (q : String) : DropdownState :=
  { s with searchQuery := q }

/-- Concrete option list for the highlight-revalidation scenario. -/
def c3Options : List DropdownOption :=
  [⟨Sum.inl "1", "aa"⟩, ⟨Sum.inl "2", "ab"⟩, ⟨Sum.inl "3", "b"⟩]

/-- Open panel, empty query, no highlight; then ArrowUp. -/
def c3AfterArrowUp : DropdownState :=
  (ddKey c3Options ⟨true, "", none⟩ DdKey.arrowUp).1

/-- Then the user types "a", narrowing the filtered list to two options. -/
def c3AfterTyping : DropdownState := ddSetQuery c3AfterArrowUp "a"

/-- Claim C3: the code does *not* re-validate `highlightedIndex` when typing
changes the filtered list: with options `aa`, `ab`, `b`, ArrowUp highlights
index 2 of the 3-element filtered list; typing "a" narrows the filtered list
to 2 elements while the highlight stays at 2 — neither `null` nor a valid
index — and a subsequent Enter fires `onSelect` with the out-of-range
(`undefined`) lookup. -/
theorem dropdown_highlight_left_out_of_range :
    c3AfterArrowUp.highlightedIndex = some 2 ∧
      (ddFilteredOptions c3Options "").length = 3 ∧
      c3AfterTyping.highlightedIndex = some 2 ∧
      c3AfterTyping.searchQuery = "a" ∧
      (ddFilteredOptions c3Options "a").length = 2 ∧
      c3AfterTyping.highlightedIndex ≠ none ∧
      ¬ (2 < (ddFilteredOptions c3Options "a").length) ∧
      (ddKey c3Options c3AfterTyping DdKey.enter).2 = some none := by
  decide

/-! ## Anchor position calculation (`updatePosition`)

Both CustomMultiSelect.tsx and the Dropdown in Modal.tsx compute, from the
trigger's `getBoundingClientRect()` and the window scroll offsets:

```
setDropdownPosition({
  top: rect.bottom + window.scrollY,
  left: rect.left + window.scrollX,
  width: rect.width,
});
```
`DOMRect.bottom = top + height`. -/

structure AnchorRect where
  top : Int
  left : Int
  width : Int
  height : Int
  deriving Repr, DecidableEq

/-- The DOMRect `bottom` accessor: top plus height. -/
def AnchorRect.bottom (r : AnchorRect) : Int := r.top + r.height

structure FloatingPos where
  top : Int
  left : Int
  width : Int
  deriving Repr, DecidableEq

/-- The `updatePosition` computation of CustomMultiSelect.tsx. -/
def cmsUpdatePosition (rect : AnchorRect) (scrollX scrollY : Int) :
    FloatingPos :=
  ⟨rect.bottom + scrollY, rect.left + scrollX, rect.width⟩

/-- The `updatePosition` computation of the Dropdown in Modal.tsx (textually the same
computation). -/
def ddUpdatePosition (rect : AnchorRect) (scrollX scrollY : Int) :
    FloatingPos :=
  ⟨rect.bottom + scrollY, rect.left + scrollX, rect.width⟩

/-- Claim C6 counterexample: on the spec's own example anchor
`{top: 100, left: 50, width: 200, height: 40}` (no scroll) the computed `top`
is exactly `140`, the anchor's bottom edge: it is *not* strictly below the
bottom edge, so no positive "small fixed gap" is added. -/
theorem position_gap_is_zero_counterexample :
    cmsUpdatePosition ⟨100, 50, 200, 40⟩ 0 0 =
        (⟨140, 50, 200⟩ : FloatingPos) ∧
      ¬ ((⟨100, 50, 200, 40⟩ : AnchorRect).bottom <
          (cmsUpdatePosition ⟨100, 50, 200, 40⟩ 0 0).top) := by
  decide

/-- Claim C6 amended: for every anchor rectangle and scroll offset, the
computed floating position has `top` equal to the anchor's bottom edge
(top plus height, plus the vertical scroll offset) with *zero* gap, `left`
equal to the anchor's left edge (plus horizontal scroll), and `width` forced
equal to the trigger's width; the CustomMultiSelect and Dropdown computations
agree. -/
theorem position_bottom_flush (rect : AnchorRect) (sx sy : Int) :
    (cmsUpdatePosition rect sx sy).top = rect.top + rect.height + sy ∧
      (cmsUpdatePosition rect sx sy).left = rect.left + sx ∧
      (cmsUpdatePosition rect sx sy).width = rect.width ∧
      ddUpdatePosition rect sx sy = cmsUpdatePosition rect sx sy :=
  ⟨rfl, rfl, rfl, rfl⟩

/-! ## Global listener lifecycle

CustomMultiSelect.tsx has two effects: the outside-click dismissal effect has
an *empty* dependency array — its `document` "mousedown" listener is attached
on mount and removed only on unmount — while the reposition effect depends on
`isOpen` and attaches window "scroll" (capture) and "resize" listeners only
while the panel is open.  The Popover (its own source file) attaches its
document "mousedown" and "keydown" (Escape) listeners inside an effect that
returns early when `open` is false, so those exist only while open. -/

inductive GlobalListener where
  | mousedownDoc
  | keydownDoc
  | scrollCaptureWin
  | resizeWin
  deriving Repr, DecidableEq

/-- The set of global listeners a CustomMultiSelect instance holds, as a
function of being mounted and of `isOpen`, read off its two effects. -/
def cmsListeners (mounted isOpen : Bool) : List GlobalListener :=
  (if mounted then [GlobalListener.mousedownDoc] else []) ++
    (if mounted && isOpen then
        [GlobalListener.scrollCaptureWin, GlobalListener.resizeWin]
      else [])

/-- The set of global listeners a Popover instance holds: its dismissal
effect bails out when closed, so both listeners exist only while open. -/
def popoverListeners (mounted isOpen : Bool) : List GlobalListener :=
  if mounted && isOpen then
    [GlobalListener.mousedownDoc, GlobalListener.keydownDoc]
  else []

/-- Claim C5 counterexample: a mounted CustomMultiSelect whose panel is closed
still holds the document-level "mousedown" dismissal listener: the set of
global listeners attributable to the closed instance is not empty, so the
dismissal listener is not attached only while the panel is open. -/
theorem closed_multiselect_holds_dismissal_listener :
    cmsListeners true false = [GlobalListener.mousedownDoc] ∧
      cmsListeners true false ≠ [] := by
  decide

/-- Claim C5 amended: the reposition listeners (captured scroll, window
resize) are attached exactly while the panel is open, and the Popover's
dismissal listeners (document mousedown and Escape keydown) are attached
exactly while it is open; but the CustomMultiSelect's outside-mousedown
dismissal listener is attached for the whole mounted lifetime of the
instance, including while the panel is closed. -/
theorem listener_lifecycle (m o : Bool) :
    (GlobalListener.scrollCaptureWin ∈ cmsListeners m o ↔
        m = true ∧ o = true) ∧
      (GlobalListener.resizeWin ∈ cmsListeners m o ↔ m = true ∧ o = true) ∧
      (GlobalListener.mousedownDoc ∈ cmsListeners m o ↔ m = true) ∧
      (popoverListeners m o ≠ [] ↔ m = true ∧ o = true) ∧
      popoverListeners m false = [] := by
  cases m <;> cases o <;> decide

/-! ## Modal focus trap (`handleKeyDown`, Modal.tsx)

```
if (e.key === "Tab") {
  const openDropdown =
    document.querySelector("[role=option]") ||
    document.querySelector(".z-50");
  if (openDropdown) return;
  const focusableElements = getFocusableElements();
  const firstElement = focusableElements[0];
  const lastElement = focusableElements[focusableElements.length - 1];
  if (!e.shiftKey && document.activeElement === lastElement) {
    e.preventDefault(); firstElement?.focus();
  } else if (e.shiftKey && document.activeElement === firstElement) {
    e.preventDefault(); lastElement?.focus();
  }
}
```
The Modal's own render output wraps everything in
`<div role="dialog" className="fixed text-black inset-0 z-50 flex
items-center justify-center bg-black/50">`, so while the Modal is open that
backdrop element is present in the document. -/

structure DocElement where
  role : Option String
  classes : List String
  deriving Repr, DecidableEq

/-- The Modal's rendered backdrop element (Modal.tsx render output). -/
def modalOverlay : DocElement :=
  ⟨some "dialog",
    ["fixed", "text-black", "inset-0", "z-50", "flex", "items-center",
      "justify-center", "bg-black/50"]⟩

/-- Truthiness of
`document.querySelector("[role=option]") || document.querySelector(".z-50")`
over the current document contents. -/
def hasOpenDropdownMarker (doc : List DocElement) : Bool :=
  doc.any (fun e => e.role == some "option") ||
    doc.any (fun e => e.classes.contains "z-50")

inductive TabResult where
  /-- Means `e.preventDefault()` was called and focus moved to this element. -/
  | focusMove (target : Nat)
  /-- The key press passed through untouched. -/
  | passThrough
  deriving Repr, DecidableEq

/-- Models `handleKeyDown` restricted to a Tab press: `doc` is the current document
contents, `focusables` the ordered focusable descendants of the modal (as
element identities), `active` the current `document.activeElement`. -/
def modalHandleTab (doc : List DocElement) (focusables : List Nat)
    (active : Nat) (shift : Bool) : TabResult :=
  if hasOpenDropdownMarker doc then TabResult.passThrough
  else if !shift && focusables.getLast? == some active then
    match focusables.head? with
    | some f => TabResult.focusMove f
    | none => TabResult.passThrough
  else if shift && focusables.head? == some active then
    match focusables.getLast? with
    | some l => TabResult.focusMove l
    | none => TabResult.passThrough
  else TabResult.passThrough

/-- Claim C8: the suppression check matches the Modal's *own* backdrop: the
backdrop carries class `z-50`, so `hasOpenDropdownMarker` is true whenever the
Modal is open even with no nested floating element present, and every Tab
press passes through — the focus trap never wraps.  With document
`[modalOverlay]` (open modal, no nested dropdown), three focusables and focus
on the last, Tab yields pass-through instead of the claimed wrap to the
first (and Shift+Tab on the first does not wrap to the last); removing the
backdrop from the document (counterfactually) makes both wraps behave as the
claim states. -/
theorem modal_tab_trap_never_fires :
    "z-50" ∈ modalOverlay.classes ∧
      hasOpenDropdownMarker [modalOverlay] = true ∧
      modalHandleTab [modalOverlay] [0, 1, 2] 2 false = TabResult.passThrough ∧
      modalHandleTab [modalOverlay] [0, 1, 2] 2 false ≠
        TabResult.focusMove 0 ∧
      modalHandleTab [modalOverlay] [0, 1, 2] 0 true = TabResult.passThrough ∧
      modalHandleTab [] [0, 1, 2] 2 false = TabResult.focusMove 0 ∧
      modalHandleTab [] [0, 1, 2] 0 true = TabResult.focusMove 2 ∧
      modalHandleTab [] [0, 1, 2] 1 false = TabResult.passThrough := by
  decide

end DrkUI
